import Mathlib

/-!
Verification of the AR placement controller of `depthai-arviewer`.

The definitions below are a shallow embedding of the TypeScript source:
* `src/components/ModelViewer.tsx` — gate (`setUiBlocked`), per-frame
  surface tracking (`useFrame` callback), `placeModel`, `clearScene`,
  the hit-test init effect and the reset effect on `isPresenting`;
* `src/components/ArHud.tsx` — `HudButton` handlers (pointer-down and
  click both call `setUiBlocked(true)`), the Clear-Scene button;
* the application log sink `addLog` (keeps the five most recent entries,
  newest first).

Numbers are rationals (`ℚ`); wall-clock times are naturals (milliseconds).
The single-threaded event loop is modelled by firing every due
`setTimeout` callback before the event handler that runs at a given time.
Rotations are symbolic values: either an Euler triple (as decomposed from
a hit matrix) or the orientation produced by `Object3D.lookAt`.
-/

/-- A three.js `Vector3` with rational coordinates. -/
structure Vec3 where
  x : ℚ
  y : ℚ
  z : ℚ
  deriving DecidableEq, Repr

/-- Orientations, kept symbolic: an Euler/quaternion value decomposed from a
hit matrix, or the orientation of an object at `at_` looking toward `eye`. -/
inductive Rot where
  | euler (x y z : ℚ)
  | look (at_ eye : Vec3)
  deriving DecidableEq, Repr

/-- A surface hit pose: position plus orientation, as decomposed from the
hit matrix in the `useFrame` callback. -/
structure HitPose where
  pos : Vec3
  rot : Rot
  deriving DecidableEq, Repr

/-- A three.js `Matrix4` (column-major elements, as in `.elements`). -/
structure Mat4 where
  e0 : ℚ
  e1 : ℚ
  e2 : ℚ
  e3 : ℚ
  e4 : ℚ
  e5 : ℚ
  e6 : ℚ
  e7 : ℚ
  e8 : ℚ
  e9 : ℚ
  e10 : ℚ
  e11 : ℚ
  e12 : ℚ
  e13 : ℚ
  e14 : ℚ
  e15 : ℚ
  deriving DecidableEq, Repr

/-- Embedding of `Vector3.applyMatrix4`: affine-projective application of a matrix
(three.js divides by the resulting homogeneous coordinate). -/
def applyMat4 (m : Mat4) (v : Vec3) : Vec3 :=
  let w := m.e3 * v.x + m.e7 * v.y + m.e11 * v.z + m.e15
  let iw := 1 / w
  ⟨(m.e0 * v.x + m.e4 * v.y + m.e8 * v.z + m.e12) * iw,
   (m.e1 * v.x + m.e5 * v.y + m.e9 * v.z + m.e13) * iw,
   (m.e2 * v.x + m.e6 * v.y + m.e10 * v.z + m.e14) * iw⟩

/-- Embedding of `Vector3.lerp`: `this += (v - this) * alpha`, no clamping of `alpha`. -/
def lerpV (a b : Vec3) (t : ℚ) : Vec3 :=
  ⟨a.x + (b.x - a.x) * t, a.y + (b.y - a.y) * t, a.z + (b.z - a.z) * t⟩

/-- Componentwise difference of vectors (used to state offset algebra). -/
def vsub (a b : Vec3) : Vec3 :=
  ⟨a.x - b.x, a.y - b.y, a.z - b.z⟩

/-- Componentwise sum of vectors. -/
def vadd (a b : Vec3) : Vec3 :=
  ⟨a.x + b.x, a.y + b.y, a.z + b.z⟩

/-- Scalar multiple of a vector. -/
def smul (c : ℚ) (a : Vec3) : Vec3 :=
  ⟨c * a.x, c * a.y, c * a.z⟩

/-- Decimal digit extraction, least significant first, with explicit fuel
(the fuel only makes the recursion structural; `natDigitsLE` always
supplies enough). -/
def decDigitsGo : ℕ → ℕ → List ℕ
  | 0, _ => []
  | fuel + 1, n => if n < 10 then [n] else n % 10 :: decDigitsGo fuel (n / 10)

/-- The decimal digits of a natural number, least significant first. -/
def natDigitsLE (n : ℕ) : List ℕ :=
  decDigitsGo (n + 1) n

/-- Value of a least-significant-first digit list. -/
def ofDigitsLE : List ℕ → ℕ
  | [] => 0
  | d :: ds => d + 10 * ofDigitsLE ds

/-- The character for one decimal digit value. -/
def digitChar (d : ℕ) : Char :=
  Char.ofNat (48 + d)

/-- Decimal rendering of a natural number, as produced by the template
literal `${Date.now()}` in `placeModel`. -/
def natDecStr (n : ℕ) : String :=
  String.mk (((natDigitsLE n).reverse).map digitChar)

/-- The id string minted by `placeModel`:
`model-${Date.now()}-${Math.random().toString(36).substr(2, 9)}`,
with `u` the millisecond timestamp and `r` the random suffix. -/
def mkId (u : ℕ) (r : String) : String :=
  "model-" ++ natDecStr u ++ "-" ++ r

/-- A placed model instance, as stored by `setModels` in `placeModel`. -/
structure PlacedModel where
  position : Vec3
  rotation : Rot
  id : String
  deriving DecidableEq, Repr

/-- Input to one `useFrame` tick: whether an XRFrame was supplied, whether
`gl.xr.getReferenceSpace()` is non-null, the pose produced by
`getHitTestResults` and `getPose` (when the hit-test source is live),
the camera world matrix and position, and the frame delta in seconds. -/
structure TickIn where
  frame : Bool
  refSpace : Bool
  rawHit : Option HitPose
  camMatrix : Mat4
  camPos : Vec3
  delta : ℚ
  deriving DecidableEq, Repr

/-- The state of the `ModelViewer` component (plus the pending `setTimeout`
callbacks of the interaction gate and the stream of `onLog` events). -/
structure ViewerSt where
  models : List PlacedModel
  isPlacementMode : Bool
  isSurfaceDetected : Bool
  hasLoggedHit : Bool
  isUiBlocked : Bool
  pendingUnblocks : List ℕ
  previewPos : Vec3
  previewRot : Rot
  reticleVisible : Bool
  hitTestSource : Bool
  isPresenting : Bool
  events : List String
  deriving DecidableEq, Repr

/-- Advance the event loop to time `u`: every `setTimeout` callback
scheduled by `setUiBlocked` whose deadline has passed fires (each sets
`isUiBlocked.current = false`) before the handler running at `u`. -/
def fireDue (u : ℕ) (s : ViewerSt) : ViewerSt :=
  { s with
    isUiBlocked := s.isUiBlocked && !(s.pendingUnblocks.any fun f => decide (f ≤ u))
    pendingUnblocks := s.pendingUnblocks.filter fun f => decide (u < f) }

/-- The call `setUiBlocked(true)` made by a HUD handler at time `u`: sets the
blocked flag and schedules a timeout clearing it 500 ms later, without
cancelling any earlier pending timeout. -/
def doBlockAt (u : ℕ) (s : ViewerSt) : ViewerSt :=
  let s1 := fireDue u s
  { s1 with
    isUiBlocked := true
    pendingUnblocks := s1.pendingUnblocks ++ [u + 500] }

/-- The placement path's gate check at time `u`: the tap handler proceeds
exactly when `isUiBlocked.current` is false once due timeouts have fired. -/
def tryConsumeAt (u : ℕ) (s : ViewerSt) : Bool :=
  !(fireDue u s).isUiBlocked

/-- The effective hit-test poll of one tick: the guard
`hitTestSource.current && referenceSpace` in the `useFrame` callback,
then the raw result. -/
def pollHit (inp : TickIn) (s : ViewerSt) : Option HitPose :=
  if s.hitTestSource && inp.refSpace then inp.rawHit else none

/-- One `useFrame` tick of `ModelViewer` (lines 80–143 of
`ModelViewer.tsx`): early return outside AR or without a frame, reticle
hidden by default, early return when placement mode is off, then either
the surface-detected branch (lock pose, one-shot log) or the no-surface
branch (smoothed camera-relative follow). -/
def frameTick (inp : TickIn) (s : ViewerSt) : ViewerSt :=
  if !(s.isPresenting && inp.frame) then s
  else if !s.isPlacementMode then { s with reticleVisible := false }
  else
    match pollHit inp s with
    | some h =>
        { s with
          isSurfaceDetected := true
          events := if s.hasLoggedHit then s.events
                    else s.events ++ ["Surface detected!"]
          hasLoggedHit := true
          reticleVisible := true
          previewPos := h.pos
          previewRot := h.rot }
    | none =>
        let target := applyMat4 inp.camMatrix ⟨0, 0, -(3 / 2)⟩
        let newPos := lerpV s.previewPos target (inp.delta * 5)
        { s with
          isSurfaceDetected := false
          reticleVisible := false
          previewPos := newPos
          previewRot := Rot.look newPos inp.camPos }

/-- Run a list of frame ticks in order. -/
def runTicks (inps : List TickIn) (s : ViewerSt) : ViewerSt :=
  inps.foldl (fun s i => frameTick i s) s

/-- The handler `placeModel` invoked by a `select` gesture at time `u`, with `r` the
random id suffix drawn in that call: guards on `isPresenting`,
`isPlacementMode` and `isUiBlocked.current`, then commits a placement
when a surface is detected, or logs the guidance message otherwise. -/
def placeModel (u : ℕ) (r : String) (s : ViewerSt) : ViewerSt :=
  let s1 := fireDue u s
  if !s1.isPresenting then s1
  else if !s1.isPlacementMode then s1
  else if s1.isUiBlocked then s1
  else if s1.isSurfaceDetected then
    { s1 with
      models := s1.models ++ [⟨s1.previewPos, s1.previewRot, mkId u r⟩]
      events := s1.events ++ ["Model placed"] }
  else
    { s1 with events := s1.events ++ ["Find a surface first"] }

/-- The handler `clearScene`: empties the registry and logs. -/
def clearScene (s : ViewerSt) : ViewerSt :=
  { s with models := [], events := s.events ++ ["Scene cleared"] }

/-- A full tap on the HUD Clear-Scene button at time `u`: the pointer-down
handler calls `setUiBlocked(true)`, the click handler calls
`setUiBlocked(true)` again, runs `onClear` (= `clearScene`) and logs
`"Scene Cleared"`. -/
def hudClearTap (u : ℕ) (s : ViewerSt) : ViewerSt :=
  let s1 := doBlockAt u s
  let s2 := doBlockAt u s1
  let s3 := clearScene s2
  { s3 with events := s3.events ++ ["Scene Cleared"] }

/-- The reset effect on `isPresenting`: when the AR session (re)starts,
`hasLoggedHit` and `isSurfaceDetected` are cleared. -/
def enterAR (s : ViewerSt) : ViewerSt :=
  { s with isPresenting := true, hasLoggedHit := false, isSurfaceDetected := false }

/-- The hit-test init effect: on success the source handle is stored; on
failure the error is logged (`Hit Test Error: …`) and the handle stays
null — the session itself is untouched. -/
def initHitTest (res : Except String Unit) (s : ViewerSt) : ViewerSt :=
  match res with
  | .ok _ => { s with hitTestSource := true }
  | .error msg => { s with events := s.events ++ ["Hit Test Error: " ++ msg] }

/-- The application debug-log sink `addLog`:
`setDebugLog(prev => [msg, ...prev].slice(0, 5))`. -/
def addLog (msg : String) (l : List String) : List String :=
  (msg :: l).take 5

/-- Whether a tick reaches the surface-detected branch: presenting, frame
supplied, placement mode on, and the poll produced a pose. -/
def tickLocks (inp : TickIn) (s : ViewerSt) : Bool :=
  s.isPresenting && inp.frame && s.isPlacementMode && (pollHit inp s).isSome

/-- A no-surface frame tick: a frame with a null poll result, camera world
matrix `M`, camera position `cp` and frame delta `d`. -/
def glideTick (M : Mat4) (cp : Vec3) (d : ℚ) : TickIn :=
  { frame := true
    refSpace := true
    rawHit := none
    camMatrix := M
    camPos := cp
    delta := d }

/-- The follow target of the no-surface branch: the point 1.5 m in front
of the camera, `new THREE.Vector3(0, 0, -1.5).applyMatrix4(cam.matrixWorld)`. -/
def followTarget (M : Mat4) : Vec3 :=
  applyMat4 M ⟨0, 0, -(3 / 2)⟩

/-- The identity matrix, used as a concrete camera world matrix. -/
def idMat : Mat4 :=
  ⟨1, 0, 0, 0, 0, 1, 0, 0, 0, 0, 1, 0, 0, 0, 0, 1⟩

/-- A concrete in-session viewer state used for closed witness runs. -/
def exSt : ViewerSt :=
  { models := []
    isPlacementMode := true
    isSurfaceDetected := true
    hasLoggedHit := true
    isUiBlocked := false
    pendingUnblocks := []
    previewPos := ⟨1, 2, 3⟩
    previewRot := Rot.euler 0 0 0
    reticleVisible := false
    hitTestSource := true
    isPresenting := true
    events := [] }

/-- A concrete in-session state identical to `exSt` except that no surface
is currently detected. -/
def exStNo : ViewerSt :=
  { exSt with isSurfaceDetected := false }

/-- A state outside any AR session, before the hit-test source request
resolves: the request failure path of C9 starts here. -/
def exStNoSource : ViewerSt :=
  { exStNo with hitTestSource := false, hasLoggedHit := false }

/-- A concrete tick whose poll hits a surface. -/
def tickHitEx : TickIn :=
  { frame := true
    refSpace := true
    rawHit := some ⟨⟨4, 5, 6⟩, Rot.euler 1 2 3⟩
    camMatrix := idMat
    camPos := ⟨0, 0, 0⟩
    delta := 1 / 60 }

/-- A concrete tick whose poll misses. -/
def tickMissEx : TickIn :=
  { tickHitEx with rawHit := none }

section ProjectionLemmas

variable (u : ℕ) (s : ViewerSt) (inp : TickIn)

@[simp] lemma fireDue_models : (fireDue u s).models = s.models := rfl

@[simp] lemma fireDue_isPresenting : (fireDue u s).isPresenting = s.isPresenting := rfl

@[simp] lemma fireDue_isPlacementMode : (fireDue u s).isPlacementMode = s.isPlacementMode :=
  rfl

@[simp] lemma fireDue_isSurfaceDetected :
    (fireDue u s).isSurfaceDetected = s.isSurfaceDetected := rfl

@[simp] lemma fireDue_hasLoggedHit : (fireDue u s).hasLoggedHit = s.hasLoggedHit := rfl

@[simp] lemma fireDue_hitTestSource : (fireDue u s).hitTestSource = s.hitTestSource := rfl

@[simp] lemma fireDue_events : (fireDue u s).events = s.events := rfl

@[simp] lemma fireDue_previewPos : (fireDue u s).previewPos = s.previewPos := rfl

@[simp] lemma fireDue_previewRot : (fireDue u s).previewRot = s.previewRot := rfl

lemma fireDue_isUiBlocked :
    (fireDue u s).isUiBlocked
      = (s.isUiBlocked && !(s.pendingUnblocks.any fun f => decide (f ≤ u))) := rfl

lemma frameTick_models : (frameTick inp s).models = s.models := by
  unfold frameTick
  split
  · rfl
  · split
    · rfl
    · split <;> rfl

lemma frameTick_isPresenting : (frameTick inp s).isPresenting = s.isPresenting := by
  unfold frameTick
  split
  · rfl
  · split
    · rfl
    · split <;> rfl

lemma frameTick_isPlacementMode : (frameTick inp s).isPlacementMode = s.isPlacementMode := by
  unfold frameTick
  split
  · rfl
  · split
    · rfl
    · split <;> rfl

lemma frameTick_hitTestSource : (frameTick inp s).hitTestSource = s.hitTestSource := by
  unfold frameTick
  split
  · rfl
  · split
    · rfl
    · split <;> rfl

lemma frameTick_isUiBlocked : (frameTick inp s).isUiBlocked = s.isUiBlocked := by
  unfold frameTick
  split
  · rfl
  · split
    · rfl
    · split <;> rfl

lemma frameTick_pendingUnblocks :
    (frameTick inp s).pendingUnblocks = s.pendingUnblocks := by
  unfold frameTick
  split
  · rfl
  · split
    · rfl
    · split <;> rfl

lemma runTicks_models (inps : List TickIn) :
    (runTicks inps s).models = s.models := by
  induction inps generalizing s with
  | nil => rfl
  | cons i is ih => simpa [runTicks, frameTick_models] using ih (frameTick i s)

end ProjectionLemmas

section LogSink

lemma addLog_foldl_take (msgs : List String) :
    ∀ l : List String,
      msgs.foldl (fun l m => addLog m l) (l.take 5) = (msgs.reverse ++ l).take 5 := by
  induction msgs with
  | nil => intro l; simp
  | cons m ms ih =>
      intro l
      have hstep : addLog m (l.take 5) = (m :: l).take 5 := by
        simp [addLog, List.take_take]
      calc (m :: ms).foldl (fun l m => addLog m l) (l.take 5)
          = ms.foldl (fun l m => addLog m l) ((m :: l).take 5) := by
            simp [List.foldl_cons, hstep]
        _ = (ms.reverse ++ (m :: l)).take 5 := ih (m :: l)
        _ = ((m :: ms).reverse ++ l).take 5 := by simp

end LogSink

/-- When the gate is still blocked at the tap time, `placeModel` leaves the
registry untouched (whatever the other guards say). -/
lemma placeModel_noop_models (u : ℕ) (r : String) (s : ViewerSt)
    (h : (fireDue u s).isUiBlocked = true) :
    (placeModel u r s).models = s.models := by
  by_cases hp : (fireDue u s).isPresenting = true <;>
    by_cases hm : (fireDue u s).isPlacementMode = true <;>
      simp [placeModel, hp, hm, h, fireDue_models]

/-- Behaviour of `placeModel` when some guard fails: the whole call is the identity
apart from the ambient firing of due gate timeouts. -/
lemma placeModel_eq_of_guardFail (u : ℕ) (r : String) (s : ViewerSt)
    (h : ¬(s.isPresenting = true ∧ s.isPlacementMode = true ∧
      (fireDue u s).isUiBlocked = false)) :
    placeModel u r s = fireDue u s := by
  by_cases hp : s.isPresenting = true
  · by_cases hm : s.isPlacementMode = true
    · by_cases hb : (fireDue u s).isUiBlocked = true
      · simp [placeModel, hp, hm, hb]
      · exact absurd ⟨hp, hm, by simpa using hb⟩ h
    · have hm' : s.isPlacementMode = false := by simpa using hm
      simp [placeModel, hp, hm']
  · have hp' : s.isPresenting = false := by simpa using hp
    simp [placeModel, hp']

lemma pollHit_frameTick (i j : TickIn) (s : ViewerSt) :
    pollHit i (frameTick j s) = pollHit i s := by
  simp [pollHit, frameTick_hitTestSource]

lemma tickLocks_frameTick (i j : TickIn) (s : ViewerSt) :
    tickLocks i (frameTick j s) = tickLocks i s := by
  simp [tickLocks, frameTick_isPresenting, frameTick_isPlacementMode, pollHit_frameTick]

lemma frameTick_of_lock (inp : TickIn) (s : ViewerSt) (h : tickLocks inp s = true) :
    (frameTick inp s).events
        = (if s.hasLoggedHit then s.events else s.events ++ ["Surface detected!"]) ∧
    (frameTick inp s).hasLoggedHit = true := by
  have hp : s.isPresenting = true := by
    simp [tickLocks] at h; exact h.1.1.1
  have hf : inp.frame = true := by
    simp [tickLocks] at h; exact h.1.1.2
  have hm : s.isPlacementMode = true := by
    simp [tickLocks] at h; exact h.1.2
  have hpoll : (pollHit inp s).isSome = true := by
    simp [tickLocks] at h; exact h.2
  obtain ⟨hpose, hh⟩ := Option.isSome_iff_exists.mp hpoll
  constructor <;> simp [frameTick, hp, hf, hm, hh]

lemma frameTick_of_noLock (inp : TickIn) (s : ViewerSt) (h : tickLocks inp s = false) :
    (frameTick inp s).events = s.events ∧
    (frameTick inp s).hasLoggedHit = s.hasLoggedHit := by
  by_cases hp : (s.isPresenting && inp.frame) = true
  · obtain ⟨hp1, hf⟩ := Bool.and_eq_true_iff.mp hp
    by_cases hm : s.isPlacementMode = true
    · have hpoll : pollHit inp s = none := by
        simp [tickLocks, hp1, hf, hm] at h
        exact Option.not_isSome_iff_eq_none.mp (by simp [h])
      constructor <;> simp [frameTick, hp, hm, hpoll]
    · have hm' : s.isPlacementMode = false := by simpa using hm
      constructor <;> simp [frameTick, hp, hm']
  · have hp' : (s.isPresenting && inp.frame) = false := by simpa using hp
    constructor <;> simp [frameTick, hp']

lemma runTicks_events_oneShot (inps : List TickIn) (s : ViewerSt) :
    (runTicks inps s).events
      = s.events ++
        (if s.hasLoggedHit = false ∧ (inps.any fun i => tickLocks i s) = true
         then ["Surface detected!"] else []) := by
  induction inps generalizing s with
  | nil => simp [runTicks]
  | cons i is ih =>
      have hrun : runTicks (i :: is) s = runTicks is (frameTick i s) := rfl
      rw [hrun, ih (frameTick i s)]
      by_cases hl : tickLocks i s = true
      · obtain ⟨hev, hlog⟩ := frameTick_of_lock i s hl
        rw [hev, hlog]
        by_cases hh : s.hasLoggedHit = true
        · simp [hh, hl]
        · have hh' : s.hasLoggedHit = false := by simpa using hh
          simp [hh', hl]
      · have hl' : tickLocks i s = false := by simpa using hl
        obtain ⟨hev, hlog⟩ := frameTick_of_noLock i s hl'
        rw [hev, hlog]
        simp [tickLocks_frameTick, hl']

lemma runTicks_hitTestSource (inps : List TickIn) (s : ViewerSt) :
    (runTicks inps s).hitTestSource = s.hitTestSource := by
  induction inps generalizing s with
  | nil => rfl
  | cons i is ih =>
      simpa [runTicks, frameTick_hitTestSource] using ih (frameTick i s)

lemma runTicks_isPresenting (inps : List TickIn) (s : ViewerSt) :
    (runTicks inps s).isPresenting = s.isPresenting := by
  induction inps generalizing s with
  | nil => rfl
  | cons i is ih =>
      simpa [runTicks, frameTick_isPresenting] using ih (frameTick i s)

lemma frameTick_noSource (inp : TickIn) (s : ViewerSt)
    (h1 : s.hitTestSource = false) (h2 : s.isSurfaceDetected = false) :
    (frameTick inp s).isSurfaceDetected = false ∧
    (frameTick inp s).events = s.events := by
  have hpoll : pollHit inp s = none := by simp [pollHit, h1]
  by_cases hp : (s.isPresenting && inp.frame) = true
  · by_cases hm : s.isPlacementMode = true
    · constructor <;> simp [frameTick, hp, hm, hpoll]
    · have hm' : s.isPlacementMode = false := by simpa using hm
      constructor <;> simp [frameTick, hp, hm', h2]
  · have hp' : (s.isPresenting && inp.frame) = false := by simpa using hp
    constructor <;> simp [frameTick, hp', h2]

lemma runTicks_noSource (inps : List TickIn) (s : ViewerSt)
    (h1 : s.hitTestSource = false) (h2 : s.isSurfaceDetected = false) :
    (runTicks inps s).isSurfaceDetected = false ∧
    (runTicks inps s).events = s.events := by
  induction inps generalizing s with
  | nil => exact ⟨h2, rfl⟩
  | cons i is ih =>
      obtain ⟨hd, hev⟩ := frameTick_noSource i s h1 h2
      have hsrc : (frameTick i s).hitTestSource = false := by
        rw [frameTick_hitTestSource]; exact h1
      obtain ⟨ihd, ihev⟩ := ih (frameTick i s) hsrc hd
      exact ⟨ihd, by rw [show runTicks (i :: is) s = runTicks is (frameTick i s) from rfl,
        ihev, hev]⟩

section IdGeneration

lemma ofDigitsLE_decDigitsGo :
    ∀ fuel n : ℕ, n < fuel → ofDigitsLE (decDigitsGo fuel n) = n := by
  intro fuel
  induction fuel with
  | zero => intro n h; omega
  | succ f ih =>
      intro n h
      unfold decDigitsGo
      split
      · simp [ofDigitsLE]
      · rename_i h10
        have hlt : n / 10 < f := by
          have := Nat.div_lt_self (show 0 < n by omega) (show 1 < 10 by omega)
          omega
        simp [ofDigitsLE, ih (n / 10) hlt]
        omega

lemma decDigitsGo_lt10 :
    ∀ fuel n d : ℕ, d ∈ decDigitsGo fuel n → d < 10 := by
  intro fuel
  induction fuel with
  | zero => intro n d hd; simp [decDigitsGo] at hd
  | succ f ih =>
      intro n d hd
      unfold decDigitsGo at hd
      split at hd
      · rename_i h10
        simp at hd
        omega
      · simp at hd
        rcases hd with hd | hd
        · have := Nat.mod_lt n (show 0 < 10 by omega)
          omega
        · exact ih _ _ hd

lemma ofDigitsLE_natDigitsLE (n : ℕ) : ofDigitsLE (natDigitsLE n) = n :=
  ofDigitsLE_decDigitsGo (n + 1) n (Nat.lt_succ_self n)

lemma natDigitsLE_lt10 (n d : ℕ) (hd : d ∈ natDigitsLE n) : d < 10 :=
  decDigitsGo_lt10 _ _ _ hd

lemma digitChar_inj10 :
    ∀ d < 10, ∀ e < 10, digitChar d = digitChar e → d = e := by decide

lemma digitChar_ne_dash : ∀ d < 10, digitChar d ≠ '-' := by decide

lemma map_digitChar_inj :
    ∀ l1 l2 : List ℕ, (∀ d ∈ l1, d < 10) → (∀ d ∈ l2, d < 10) →
      l1.map digitChar = l2.map digitChar → l1 = l2 := by
  intro l1
  induction l1 with
  | nil =>
      intro l2 _ _ h
      cases l2 with
      | nil => rfl
      | cons b t2 => simp at h
  | cons a t ih =>
      intro l2 h1 h2 h
      cases l2 with
      | nil => simp at h
      | cons b t2 =>
          simp at h
          have ha := h1 a (by simp)
          have hb := h2 b (by simp)
          have hab : a = b := digitChar_inj10 a ha b hb h.1
          have ht : t = t2 :=
            ih t2 (fun d hd => h1 d (by simp [hd])) (fun d hd => h2 d (by simp [hd])) h.2
          rw [hab, ht]

lemma natDecStr_inj (n m : ℕ) (h : natDecStr n = natDecStr m) : n = m := by
  unfold natDecStr at h
  have hmap : ((natDigitsLE n).reverse).map digitChar
      = ((natDigitsLE m).reverse).map digitChar := by
    simpa using congrArg String.data h
  have hrev : (natDigitsLE n).reverse = (natDigitsLE m).reverse :=
    map_digitChar_inj _ _
      (fun d hd => natDigitsLE_lt10 n d (List.mem_reverse.mp hd))
      (fun d hd => natDigitsLE_lt10 m d (List.mem_reverse.mp hd)) hmap
  have hdig : natDigitsLE n = natDigitsLE m := by
    simpa using congrArg List.reverse hrev
  calc n = ofDigitsLE (natDigitsLE n) := (ofDigitsLE_natDigitsLE n).symm
    _ = ofDigitsLE (natDigitsLE m) := by rw [hdig]
    _ = m := ofDigitsLE_natDigitsLE m

lemma append_dash_inj :
    ∀ l1 l2 m1 m2 : List Char, (∀ c ∈ l1, c ≠ '-') → (∀ c ∈ l2, c ≠ '-') →
      l1 ++ '-' :: m1 = l2 ++ '-' :: m2 → l1 = l2 ∧ m1 = m2 := by
  intro l1
  induction l1 with
  | nil =>
      intro l2 m1 m2 _ h2 h
      cases l2 with
      | nil => simpa using h
      | cons b t2 =>
          exfalso
          simp at h
          exact h2 b (by simp) h.1.symm
  | cons a t ih =>
      intro l2 m1 m2 h1 h2 h
      cases l2 with
      | nil =>
          exfalso
          simp at h
          exact h1 a (by simp) h.1
      | cons b t2 =>
          simp at h
          obtain ⟨he, ht⟩ := h
          obtain ⟨e1, e2⟩ := ih t2 m1 m2
            (fun c hc => h1 c (by simp [hc])) (fun c hc => h2 c (by simp [hc])) ht
          exact ⟨by rw [he, e1], e2⟩

lemma mkId_data (u : ℕ) (r : String) :
    (mkId u r).data
      = ['m', 'o', 'd', 'e', 'l', '-']
          ++ (((natDigitsLE u).reverse).map digitChar ++ '-' :: r.data) := by
  simp [mkId, natDecStr, String.data_append]

lemma mkId_inj (u u' : ℕ) (r r' : String) (h : mkId u r = mkId u' r') :
    u = u' ∧ r = r' := by
  have hd := congrArg String.data h
  rw [mkId_data, mkId_data] at hd
  have hd2 : ((natDigitsLE u).reverse).map digitChar ++ '-' :: r.data
      = ((natDigitsLE u').reverse).map digitChar ++ '-' :: r'.data :=
    List.append_cancel_left hd
  have hnd : ∀ c ∈ ((natDigitsLE u).reverse).map digitChar, c ≠ '-' := by
    intro c hc
    rcases List.mem_map.mp hc with ⟨d, hd3, rfl⟩
    exact digitChar_ne_dash d (natDigitsLE_lt10 u d (List.mem_reverse.mp hd3))
  have hnd' : ∀ c ∈ ((natDigitsLE u').reverse).map digitChar, c ≠ '-' := by
    intro c hc
    rcases List.mem_map.mp hc with ⟨d, hd3, rfl⟩
    exact digitChar_ne_dash d (natDigitsLE_lt10 u' d (List.mem_reverse.mp hd3))
  obtain ⟨e1, e2⟩ := append_dash_inj _ _ _ _ hnd hnd' hd2
  refine ⟨natDecStr_inj u u' ?_, String.ext e2⟩
  unfold natDecStr
  exact congrArg String.mk e1

end IdGeneration

section PreviewFollow

lemma vec3_ext (a b : Vec3) (hx : a.x = b.x) (hy : a.y = b.y) (hz : a.z = b.z) :
    a = b := by
  cases a; cases b; simp_all

lemma smul_smul_comp (a b : ℚ) (v : Vec3) : smul a (smul b v) = smul (a * b) v := by
  refine vec3_ext _ _ ?_ ?_ ?_ <;> simp [smul] <;> ring

lemma vsub_vadd_cancel (t v : Vec3) : vsub (vadd t v) t = v := by
  refine vec3_ext _ _ ?_ ?_ ?_ <;> simp [vsub, vadd]

lemma lerpV_as_offset (p t : Vec3) (a : ℚ) :
    lerpV p t a = vadd t (smul (1 - a) (vsub p t)) := by
  refine vec3_ext _ _ ?_ ?_ ?_ <;> simp [lerpV, vadd, smul, vsub] <;> ring

lemma frameTick_glide_previewPos (s : ViewerSt) (M : Mat4) (cp : Vec3) (d : ℚ)
    (hp : s.isPresenting = true) (hm : s.isPlacementMode = true) :
    (frameTick (glideTick M cp d) s).previewPos
      = lerpV s.previewPos (followTarget M) (d * 5) := by
  have hpoll : pollHit (glideTick M cp d) s = none := by
    simp [pollHit, glideTick]
  simp only [glideTick] at hpoll
  simp [frameTick, glideTick, hp, hm, hpoll, followTarget]

end PreviewFollow

/-- Claim C1: `placeModel` is a no-op (registry and log untouched) unless
the session presents, placement mode is on and the gate check passes;
given all three it appends exactly one instance carrying the current
preview pose and logs `"Model placed"` when a surface is detected, and
leaves the registry unchanged while logging `"Find a surface first"`
otherwise. -/
theorem claim_C1 (s : ViewerSt) (u : ℕ) (r : String) :
    (¬(s.isPresenting = true ∧ s.isPlacementMode = true ∧ tryConsumeAt u s = true) →
      (placeModel u r s).models = s.models ∧ (placeModel u r s).events = s.events) ∧
    (s.isPresenting = true → s.isPlacementMode = true → tryConsumeAt u s = true →
      (s.isSurfaceDetected = true →
        (placeModel u r s).models
            = s.models ++ [⟨s.previewPos, s.previewRot, mkId u r⟩] ∧
        (placeModel u r s).events = s.events ++ ["Model placed"]) ∧
      (s.isSurfaceDetected = false →
        (placeModel u r s).models = s.models ∧
        (placeModel u r s).events = s.events ++ ["Find a surface first"])) := by
  constructor
  · intro hng
    have h : ¬(s.isPresenting = true ∧ s.isPlacementMode = true ∧
        (fireDue u s).isUiBlocked = false) := by
      rintro ⟨a, b, c⟩
      exact hng ⟨a, b, by simp [tryConsumeAt, c]⟩
    rw [placeModel_eq_of_guardFail u r s h]
    exact ⟨rfl, rfl⟩
  · intro hp hm hg
    have hb : (fireDue u s).isUiBlocked = false := by
      simpa [tryConsumeAt] using hg
    constructor
    · intro hd
      constructor <;> simp [placeModel, hp, hm, hb, hd]
    · intro hd
      constructor <;> simp [placeModel, hp, hm, hb, hd]

/-- Witness for C1: a tap on `exSt` (surface detected) commits one
instance with the preview pose and logs; a tap on `exStNo` (no surface)
leaves the registry empty and logs the guidance message. -/
theorem claim_C1_witness :
    ((placeModel 0 "r1" exSt).models
        = exSt.models ++ [⟨exSt.previewPos, exSt.previewRot, mkId 0 "r1"⟩] ∧
      (placeModel 0 "r1" exSt).events = exSt.events ++ ["Model placed"]) ∧
    ((placeModel 0 "r1" exStNo).models = exStNo.models ∧
      (placeModel 0 "r1" exStNo).events = exStNo.events ++ ["Find a surface first"]) :=
  ⟨((claim_C1 exSt 0 "r1").2 rfl rfl (by decide)).1 rfl,
   ((claim_C1 exStNo 0 "r1").2 rfl rfl (by decide)).2 rfl⟩

/-- Claim C2: after a single `setUiBlocked(true)` at time `t` (gate
previously idle, no further block calls), the placement-gate check fails
throughout `[t, t + 500)` and succeeds at any time `≥ t + 500`; moreover a
world tap within the cool-down after a HUD Clear-Scene tap leaves the
registry unchanged. -/
theorem claim_C2 (s : ViewerSt) (t u : ℕ) (r : String)
    (hpend : s.pendingUnblocks = []) :
    (t ≤ u → u < t + 500 → tryConsumeAt u (doBlockAt t s) = false) ∧
    (t + 500 ≤ u → tryConsumeAt u (doBlockAt t s) = true) ∧
    (t ≤ u → u < t + 500 →
      (placeModel u r (hudClearTap t s)).models = (hudClearTap t s).models) := by
  refine ⟨?_, ?_, ?_⟩
  · intro h1 h2
    simp [tryConsumeAt, doBlockAt, fireDue, hpend]
    omega
  · intro h
    simp [tryConsumeAt, doBlockAt, fireDue, hpend, h]
  · intro h1 h2
    have hblocked :
        (fireDue u (hudClearTap t s)).isUiBlocked = true := by
      simp [hudClearTap, clearScene, doBlockAt, fireDue, hpend]
      omega
    exact placeModel_noop_models u r (hudClearTap t s) hblocked

/-- Witness for C2 at concrete inputs: block at 100, check at 400 rejected,
check at 600 accepted, and a tap at 400 after a Clear-Scene tap at 100
leaves the registry as the clear left it. -/
theorem claim_C2_witness :
    tryConsumeAt 400 (doBlockAt 100 exSt) = false ∧
    tryConsumeAt 600 (doBlockAt 100 exSt) = true ∧
    (placeModel 400 "r0" (hudClearTap 100 exSt)).models = (hudClearTap 100 exSt).models := by
  have h := claim_C2 exSt 100 400 "r0" rfl
  have h6 := claim_C2 exSt 100 600 "r0" rfl
  exact ⟨h.1 (by decide) (by decide), h6.2.1 (by decide),
    h.2.2 (by decide) (by decide)⟩

/-- Claim C3 counterexample: with block calls at times 0 and 300, the gate
check at time 600 succeeds even though 600 < 300 + 500 — a re-block does
not extend the unblock deadline, because the first timeout still fires at
500. -/
theorem claim_C3_cex :
    tryConsumeAt 600 (doBlockAt 300 (doBlockAt 0 exSt)) = true ∧ 600 < 300 + 500 := by
  constructor
  · decide
  · decide

/-- Claim C3 (amended): each `setUiBlocked(true)` sets the blocked flag and
schedules an uncancelled timeout 500 ms out; the gate unblocks when the
earliest pending timeout fires. Hence for blocks at `t1 ≤ t2 < t1 + 500`
(gate previously idle), every check in `[t2, t1 + 500)` is rejected and
every check at or after `t1 + 500` is accepted. -/
theorem claim_C3_amended (s : ViewerSt) (t1 t2 u : ℕ)
    (hpend : s.pendingUnblocks = []) (h12 : t1 ≤ t2) (hov : t2 < t1 + 500) :
    (t2 ≤ u → u < t1 + 500 → tryConsumeAt u (doBlockAt t2 (doBlockAt t1 s)) = false) ∧
    (t1 + 500 ≤ u → tryConsumeAt u (doBlockAt t2 (doBlockAt t1 s)) = true) := by
  constructor
  · intro h1 h2
    simp [tryConsumeAt, doBlockAt, fireDue, hpend]
    omega
  · intro h
    simp [tryConsumeAt, doBlockAt, fireDue, hpend]
    omega

/-- Witness for the amended C3 at concrete inputs: blocks at 0 and 300,
check at 400 rejected, check at 500 accepted. -/
theorem claim_C3_witness :
    tryConsumeAt 400 (doBlockAt 300 (doBlockAt 0 exSt)) = false ∧
    tryConsumeAt 500 (doBlockAt 300 (doBlockAt 0 exSt)) = true := by
  have h := claim_C3_amended exSt 0 300 400 rfl (by decide) (by decide)
  have h5 := claim_C3_amended exSt 0 300 500 rfl (by decide) (by decide)
  exact ⟨h.1 (by decide) (by decide), h5.2 (by decide)⟩

/-- Claim C4: within one AR session — after the reset effect that fires
when the session (re)starts — the `"Surface detected!"` event is appended
exactly once over any subsequent sequence of frame ticks, namely when some
tick locks a surface, and never again across later detected→lost→detected
transitions. -/
theorem claim_C4 (inps : List TickIn) (s : ViewerSt) :
    (runTicks inps (enterAR s)).events
      = s.events ++
        (if (inps.any fun i => tickLocks i (enterAR s)) = true
         then ["Surface detected!"] else []) := by
  have h := runTicks_events_oneShot inps (enterAR s)
  simpa [enterAR] using h

/-- Claim C5: while presenting with placement mode on and a frame
supplied, one tick leaves the surface-detected boolean true exactly when
that tick's hit-test poll produced a pose. -/
theorem claim_C5 (s : ViewerSt) (inp : TickIn)
    (hp : s.isPresenting = true) (hm : s.isPlacementMode = true)
    (hf : inp.frame = true) :
    (frameTick inp s).isSurfaceDetected = (pollHit inp s).isSome := by
  cases hh : pollHit inp s <;> simp [frameTick, hp, hm, hf, hh]

/-- Witness for C5: a hitting tick turns detection on, a missing tick
turns it off. -/
theorem claim_C5_witness :
    (frameTick tickHitEx exSt).isSurfaceDetected = (pollHit tickHitEx exSt).isSome ∧
    (frameTick tickMissEx exSt).isSurfaceDetected = (pollHit tickMissEx exSt).isSome :=
  ⟨claim_C5 exSt tickHitEx rfl rfl rfl, claim_C5 exSt tickMissEx rfl rfl rfl⟩

/-- Claim C6: a committed placement stores a by-value copy of the preview
pose — the new last registry entry carries the preview pose and id of the
moment of the tap, and no later sequence of frame ticks (which keep moving
the live preview pose) changes any registry entry. -/
theorem claim_C6 (s : ViewerSt) (u : ℕ) (r : String) (inps : List TickIn)
    (hp : s.isPresenting = true) (hm : s.isPlacementMode = true)
    (hg : tryConsumeAt u s = true) (hd : s.isSurfaceDetected = true) :
    (placeModel u r s).models.getLast? = some ⟨s.previewPos, s.previewRot, mkId u r⟩ ∧
    (runTicks inps (placeModel u r s)).models = (placeModel u r s).models := by
  have hb : (fireDue u s).isUiBlocked = false := by
    simpa [tryConsumeAt] using hg
  refine ⟨?_, runTicks_models _ _⟩
  simp [placeModel, hp, hm, hb, hd, List.getLast?_concat]

/-- Witness for C6: a concrete placement on `exSt` followed by a missing
tick (which moves the preview) leaves the stored entry intact. -/
theorem claim_C6_witness :
    (placeModel 7 "xyz" exSt).models.getLast?
        = some ⟨exSt.previewPos, exSt.previewRot, mkId 7 "xyz"⟩ ∧
    (runTicks [tickMissEx] (placeModel 7 "xyz" exSt)).models
        = (placeModel 7 "xyz" exSt).models :=
  claim_C6 exSt 7 "xyz" [tickMissEx] rfl rfl (by decide) rfl

/-- Claim C7 counterexample: two placements both made at millisecond 5
with random suffix `"abc"` — one before a `clearScene`, one after — mint
the very same id `"model-5-abc"`: the code does not guarantee that a
post-clear add receives an id distinct from every id previously issued. -/
theorem claim_C7_cex :
    ((placeModel 5 "abc" exSt).models.map fun m => m.id) = ["model-5-abc"] ∧
    ((placeModel 5 "abc" (clearScene (placeModel 5 "abc" exSt))).models.map fun m => m.id)
      = ["model-5-abc"] :=
  ⟨by decide, by decide⟩

/-- Claim C7 (amended): `clearScene` followed by `list()` yields the empty
sequence, a subsequent add still succeeds — it appends exactly one entry
whose id is `model-<timestamp>-<suffix>` — and that id differs from any
other issued id provided the (timestamp, suffix) pair differs; uniqueness
is not guaranteed when both the millisecond timestamp and the random
suffix repeat. -/
theorem claim_C7_amended (s : ViewerSt) (u : ℕ) (r : String)
    (hp : s.isPresenting = true) (hm : s.isPlacementMode = true)
    (hg : tryConsumeAt u (clearScene s) = true) (hd : s.isSurfaceDetected = true) :
    (clearScene s).models = [] ∧
    (placeModel u r (clearScene s)).models
        = [⟨s.previewPos, s.previewRot, mkId u r⟩] ∧
    (∀ u' r', u ≠ u' ∨ r ≠ r' → mkId u r ≠ mkId u' r') := by
  have hb : (fireDue u (clearScene s)).isUiBlocked = false := by
    simpa [tryConsumeAt] using hg
  refine ⟨rfl, ?_, ?_⟩
  · simp [placeModel, clearScene, hp, hm, hd] at hb ⊢
    simp [hb]
  · intro u' r' hne he
    rcases mkId_inj u u' r r' he with ⟨h1, h2⟩
    rcases hne with hne | hne
    · exact hne h1
    · exact hne h2

/-- Witness for the amended C7: a concrete clear on `exSt`, a subsequent
add issuing `model-5-abc`, and distinctness against a different
timestamp. -/
theorem claim_C7_witness :
    (clearScene exSt).models = [] ∧
    (placeModel 5 "abc" (clearScene exSt)).models
        = [⟨exSt.previewPos, exSt.previewRot, mkId 5 "abc"⟩] ∧
    mkId 5 "abc" ≠ mkId 6 "abc" := by
  have h := claim_C7_amended exSt 5 "abc" rfl rfl (by decide) rfl
  exact ⟨h.1, h.2.1, h.2.2 6 "abc" (Or.inl (by decide))⟩

/-- Claim C8 counterexample: starting from the same state and the same
fixed camera, covering a total elapsed time of 1/5 s in one frame vs in
two frames of 1/10 s leads to different preview positions — the
`lerp(target, delta * 5)` update is not frame-rate independent. -/
theorem claim_C8_cex :
    (runTicks [glideTick idMat ⟨0, 0, 0⟩ (1 / 5)] exStNo).previewPos
      ≠ (runTicks [glideTick idMat ⟨0, 0, 0⟩ (1 / 10),
                   glideTick idMat ⟨0, 0, 0⟩ (1 / 10)] exStNo).previewPos ∧
    (1 / 5 : ℚ) = 1 / 10 + 1 / 10 := by
  refine ⟨?_, by norm_num⟩
  have h1 : (runTicks [glideTick idMat ⟨0, 0, 0⟩ (1 / 5)] exStNo).previewPos
      = ⟨0, 0, -(3 / 2)⟩ := by
    simp [runTicks, frameTick, glideTick, pollHit, exStNo, exSt, applyMat4, idMat,
      lerpV]
  have h2 : (runTicks [glideTick idMat ⟨0, 0, 0⟩ (1 / 10),
      glideTick idMat ⟨0, 0, 0⟩ (1 / 10)] exStNo).previewPos
      = ⟨1 / 4, 1 / 2, -(3 / 8)⟩ := by
    simp [runTicks, frameTick, glideTick, pollHit, exStNo, exSt, applyMat4, idMat,
      lerpV]
    norm_num
  rw [h1, h2]
  simp [Vec3.mk.injEq]

/-- Claim C8 (amended): while no surface is detected the preview position
update is a per-frame linear interpolation toward the camera target by the
factor `delta * 5`: each tick scales the offset from the target by
`1 - 5 * delta`, so after frame deltas `ds` the offset is the starting
offset times the product of the per-frame factors. The result therefore
depends on how a total elapsed time is partitioned into frames, not only
on its sum — the update is delta-parameterised but not frame-rate
independent. -/
theorem claim_C8_amended (s : ViewerSt) (M : Mat4) (cp : Vec3) (ds : List ℚ)
    (hp : s.isPresenting = true) (hm : s.isPlacementMode = true) :
    (runTicks (ds.map (glideTick M cp)) s).previewPos
      = vadd (followTarget M)
          (smul ((ds.map fun d => 1 - 5 * d).prod)
            (vsub s.previewPos (followTarget M))) := by
  induction ds generalizing s with
  | nil =>
      refine vec3_ext _ _ ?_ ?_ ?_ <;>
        simp [runTicks, vadd, smul, vsub, followTarget]
  | cons d ds ih =>
      have hstep : runTicks ((d :: ds).map (glideTick M cp)) s
          = runTicks (ds.map (glideTick M cp)) (frameTick (glideTick M cp d) s) := rfl
      rw [hstep, ih (frameTick (glideTick M cp d) s)
        (by rw [frameTick_isPresenting]; exact hp)
        (by rw [frameTick_isPlacementMode]; exact hm)]
      rw [frameTick_glide_previewPos s M cp d hp hm, lerpV_as_offset,
        vsub_vadd_cancel, smul_smul_comp]
      refine vec3_ext _ _ ?_ ?_ ?_ <;>
        simp [vadd, smul, vsub, List.prod_cons] <;> exact Or.inl (by ring)

/-- Witness for the amended C8: one concrete frame of 1/10 s on `exStNo`
scales the offset from the identity-camera target by 1/2. -/
theorem claim_C8_witness :
    (runTicks [glideTick idMat ⟨0, 0, 0⟩ (1 / 10)] exStNo).previewPos
      = vadd (followTarget idMat)
          (smul (([(1 / 10 : ℚ)].map fun d => 1 - 5 * d).prod)
            (vsub exStNo.previewPos (followTarget idMat))) := by
  have h := claim_C8_amended exStNo idMat ⟨0, 0, 0⟩ [1 / 10] rfl rfl
  simpa using h

/-- Claim C9: when the hit-test source request fails, the error is
reported to the log sink, the session state is untouched, and every
subsequent frame's poll yields nothing — the system permanently behaves
as if no surface is ever detected (the handle stays null; nothing in the
frame loop retries the request). -/
theorem claim_C9 (s : ViewerSt) (msg : String) (inps : List TickIn)
    (hsrc : s.hitTestSource = false) (hdet : s.isSurfaceDetected = false) :
    (initHitTest (Except.error msg) s).events
        = s.events ++ ["Hit Test Error: " ++ msg] ∧
    (initHitTest (Except.error msg) s).hitTestSource = false ∧
    (initHitTest (Except.error msg) s).isPresenting = s.isPresenting ∧
    (runTicks inps (initHitTest (Except.error msg) s)).hitTestSource = false ∧
    (runTicks inps (initHitTest (Except.error msg) s)).isSurfaceDetected = false ∧
    (runTicks inps (initHitTest (Except.error msg) s)).events
        = s.events ++ ["Hit Test Error: " ++ msg] ∧
    (runTicks inps (initHitTest (Except.error msg) s)).isPresenting = s.isPresenting := by
  have hi1 : (initHitTest (Except.error msg) s).hitTestSource = false := hsrc
  have hi2 : (initHitTest (Except.error msg) s).isSurfaceDetected = false := hdet
  obtain ⟨hd, hev⟩ := runTicks_noSource inps (initHitTest (Except.error msg) s) hi1 hi2
  refine ⟨rfl, hi1, rfl, ?_, hd, ?_, ?_⟩
  · rw [runTicks_hitTestSource]; exact hi1
  · rw [hev]; rfl
  · rw [runTicks_isPresenting]; rfl

/-- Witness for C9: after a failed request on a concrete state, a hitting
tick still leaves detection off and the log stops at the error entry. -/
theorem claim_C9_witness :
    (runTicks [tickHitEx] (initHitTest (Except.error "unsupported") exStNoSource)).isSurfaceDetected
        = false ∧
    (runTicks [tickHitEx] (initHitTest (Except.error "unsupported") exStNoSource)).events
        = exStNoSource.events ++ ["Hit Test Error: " ++ "unsupported"] :=
  ⟨(claim_C9 exStNoSource "unsupported" [tickHitEx] rfl rfl).2.2.2.2.1,
   (claim_C9 exStNoSource "unsupported" [tickHitEx] rfl rfl).2.2.2.2.2.1⟩

/-- Claim C10: the debug log sink retains at most the five most recent
messages in newest-first order: after any sequence of `addLog` calls
starting from the empty history, the visible history equals the last five
messages logged, most recent first. -/
theorem claim_C10 (msgs : List String) :
    msgs.foldl (fun l m => addLog m l) [] = msgs.reverse.take 5 := by
  have h := addLog_foldl_take msgs []
  simpa using h
